import Mathlib

/-!
# Verification of the SPT liquefaction calculator

A shallow embedding of the core logic of `SPT-英文.py`:

* the column resolver (`_standardize_text`, `_auto_recognize_column_names`,
  together with the static `column_name_mapping` alias table), modelled over
  `List Char`;
* the liquefaction engine (`calculate_liquefaction_index`), modelled with
  rational inputs (Python floats are decimal-entered dyadic rationals) and
  real-valued layer outputs (the formulas use `sqrt`, `exp` and `log`).

A raised `ValueError` is modelled by `Option.none`; all other paths of the
engine are total.
-/

namespace SPT

/-! ## Column resolver -/

/-- Strings are modelled as lists of characters so that the Python substring
test `a in b` becomes `List.isInfixOf`. -/
abbrev Str := List Char

/-- A character survives `re.sub(r'[^a-zA-Z0-9一-龥]', '', text)`
iff it is an ASCII letter, an ASCII digit, or a CJK ideograph. -/
def isKeptChar (c : Char) : Bool :=
  ('a' ≤ c && c ≤ 'z') || ('A' ≤ c && c ≤ 'Z') || ('0' ≤ c && c ≤ '9') ||
    (0x4e00 ≤ c.toNat && c.toNat ≤ 0x9fa5)

/-- `_standardize_text`: strip every character that is not an ASCII
letter/digit or CJK ideograph, then lowercase. -/
def standardize_text (s : Str) : Str :=
  (s.filter isKeptChar).map Char.toLower

/-- Insert into a Python-dict association list: an existing key keeps its
position but its value is overwritten; a new key is appended. -/
def dictInsert (d : List (Str × Str)) (k v : Str) : List (Str × Str) :=
  match d with
  | [] => [(k, v)]
  | (k', v') :: rest =>
      if k' = k then (k', v) :: rest else (k', v') :: dictInsert rest k v

/-- `{standardize_text(col): col for col in column_name_list}` — the dict of
standardized column names, in insertion order. -/
def buildStandardizedColumns (cols : List Str) : List (Str × Str) :=
  cols.foldl (fun d c => dictInsert d (standardize_text c) c) []

/-- Python `dict[k]` / `k in dict`, returning `none` when the key is absent. -/
def dictLookup (d : List (Str × Str)) (k : Str) : Option Str :=
  d.findSome? (fun p => if p.1 = k then some p.2 else none)

/-- The Python substring test `needle in hay` (true also when the two are
equal or the needle is empty). -/
def strContains (hay needle : Str) : Bool :=
  needle.isPrefixOf hay ||
    match hay with
    | [] => false
    | _ :: t => strContains t needle

/-- The static `column_name_mapping` alias table: canonical field name paired
with its ordered alias list. -/
def column_name_mapping : List (Str × List Str) :=
  [ ("Site Number".data,
      ["Site Number".data, "Site ID".data, "Measurement Point Number".data,
       "ID".data, "Point No".data, "Point ID".data]),
    ("Saturated Sand Depth ds(m)".data,
      ["Saturated Sand Depth ds(m)".data, "Saturation Depth(m)".data, "ds".data,
       "Saturated Burial Depth".data, "Sand Depth ds".data, "Burial Depth ds".data]),
    ("Measured SPT Blow Count N".data,
      ["Measured SPT Blow Count N".data, "N value".data, "Measured Penetration Value".data,
       "Standard Penetration N".data, "N".data, "Blow Count N".data]),
    ("Clay/Fine Particle Content(%)".data,
      ["Clay Content ρc(%)".data, "ρc".data, "Clay Content".data, "Clay Percentage".data,
       "Fine Particle Content Fc(%)".data, "Fc".data, "Fine Particle Percentage".data,
       "Fine Particle Content".data]),
    ("Surface Peak Acceleration amax(g)".data,
      ["Surface Peak Acceleration amax(g)".data, "amax".data, "Peak Acceleration".data,
       "Acceleration Peak".data]),
    ("Seismic Intensity".data,
      ["Seismic Intensity".data, "Intensity".data, "Earthquake Grade".data]) ]

/-- Resolution of one canonical field against the standardized-columns dict:
(1) exact match of the standardized canonical name; (2) exact match of a
standardized alias, first alias wins; (3) fuzzy containment — first dict entry
whose standardized form contains the standardized canonical name or any
standardized alias. -/
def resolveField (cols : List (Str × Str)) (canon : Str) (aliases : List Str) :
    Option Str :=
  let stdCanon := standardize_text canon
  match dictLookup cols stdCanon with
  | some orig => some orig
  | none =>
      match aliases.findSome? (fun a => dictLookup cols (standardize_text a)) with
      | some orig => some orig
      | none =>
          cols.findSome? (fun p =>
            if strContains p.1 stdCanon ||
                aliases.any (fun a => strContains p.1 (standardize_text a))
            then some p.2 else none)

/-- `_auto_recognize_column_names`: per canonical field, the best-matching raw
header (or `none`). -/
def auto_recognize_column_names (columnNames : List Str) :
    List (Str × Option Str) :=
  let cols := buildStandardizedColumns columnNames
  column_name_mapping.map (fun p => (p.1, resolveField cols p.1 p.2))

/-! ## Liquefaction engine: data model -/

/-- `acceleration_intensity_choice`: `"amax"` or `"intensity"`. -/
inductive SeismicChoice
  | amaxChoice
  | intensityChoice
  deriving DecidableEq

/-- `particle_content_choice`: `"ρc"` (clay) or `"Fc"` (fine particle). -/
inductive ContentChoice
  | clayContent
  | fineContent
  deriving DecidableEq

/-- `beta_calculation_method`: `"group"` or formula. -/
inductive BetaMethod
  | group
  | formula
  deriving DecidableEq

/-- One entry of `soil_layer_data`. -/
structure SoilLayer where
  ds : ℚ
  N : ℚ
  content_value : ℚ
  deriving DecidableEq

/-- The calculation-relevant fields of the `data` dict passed to
`calculate_liquefaction_index`. -/
structure SiteData where
  acceleration_intensity_choice : SeismicChoice
  particle_content_choice : ContentChoice
  beta_calculation_method : BetaMethod
  seismic_intensity : ℤ
  amax_input_value : ℚ
  discrimination_depth : ℤ
  groundwater_depth_dw : ℚ
  surface_wave_magnitude_Ms : ℚ
  design_earthquake_group : String
  soil_layer_data : List SoilLayer

/-- One entry of `soil_layer_calculation_details`. -/
structure LayerDetail where
  ds : ℚ
  N : ℚ
  content_value : ℚ
  Ncr : ℝ
  PL : ℝ
  Ncr_PL : ℝ
  wi : ℚ
  contribution_value : ℝ

/-- `liquefaction_grade` values. -/
inductive LiquefactionGrade
  | noLiquefaction
  | slight
  | moderate
  | severe
  deriving DecidableEq

/-- The calculation-relevant fields of the result dict. -/
structure SiteResult where
  design_earthquake_adjustment_coefficient_β : ℚ
  liquefaction_index_ILE : ℝ
  liquefaction_grade : LiquefactionGrade
  soil_layer_calculation_details : List LayerDetail

/-! ## Liquefaction engine: computation -/

/-- Step 1: design earthquake adjustment coefficient β. Group `"1"` → 0.80,
`"2"` → 0.95, `"3"` → 1.05, anything else defaults to 0.80; formula mode is
`0.20·Ms − 0.50` clamped into `[0.80, 1.05]`. -/
def computeBeta (d : SiteData) : ℚ :=
  match d.beta_calculation_method with
  | .group =>
      if d.design_earthquake_group = "1" then 0.80
      else if d.design_earthquake_group = "2" then 0.95
      else if d.design_earthquake_group = "3" then 1.05
      else 0.80
  | .formula =>
      max 0.80 (min 1.05 (0.20 * d.surface_wave_magnitude_Ms - 0.50))

/-- `amax_mapping = {7: 0.1, 8: 0.2, 9: 0.4}` as a partial map. -/
def amax_mapping (i : ℤ) : Option ℚ :=
  if i = 7 then some 0.1 else if i = 8 then some 0.2
  else if i = 9 then some 0.4 else none

/-- `N_prime_mapping = {0.10: 16, 0.15: 20, 0.20: 23, 0.30: 31, 0.40: 37}`
as a partial map. -/
def N_prime_mapping (a : ℚ) : Option ℚ :=
  if a = 0.10 then some 16 else if a = 0.15 then some 20
  else if a = 0.20 then some 23 else if a = 0.30 then some 31
  else if a = 0.40 then some 37 else none

/-- Step 2: seismic parameter resolution, returning `(amax, N')`.
In amax mode the input is validated against `0.09 ≤ amax ≤ 0.41` (a failed
check is the `ValueError`, modelled as `none`) and `N'` keeps its initial
value 16; in intensity mode `amax` comes from `amax_mapping` (default 0.1) and
`N'` from `N_prime_mapping` (default 16). -/
def resolveSeismicParams (d : SiteData) : Option (ℚ × ℚ) :=
  match d.acceleration_intensity_choice with
  | .amaxChoice =>
      if 0.09 ≤ d.amax_input_value ∧ d.amax_input_value ≤ 0.41 then
        some (d.amax_input_value, 16)
      else none
  | .intensityChoice =>
      let amax := (amax_mapping d.seismic_intensity).getD 0.1
      some (amax, (N_prime_mapping amax).getD 16)

/-- Step 1.1: standard penetration critical value Ncr, floored at 1.0. -/
noncomputable def computeNcr (d : SiteData) (amax NPrime : ℚ) (β : ℚ)
    (layer : SoilLayer) : ℝ :=
  let raw : ℝ :=
    match d.acceleration_intensity_choice with
    | .amaxChoice =>
        let term1 : ℝ := (69 * (amax : ℝ)) / ((amax : ℝ) + 0.40)
        let term2 : ℝ := 1 - 0.02 * (d.groundwater_depth_dw : ℝ)
        let term3 : ℝ := 0.21 + (0.79 * (layer.ds : ℝ)) / ((layer.ds : ℝ) + 6.2)
        match d.particle_content_choice with
        | .clayContent =>
            (β : ℝ) * term1 * term2 * term3 *
              Real.sqrt (3 / (layer.content_value : ℝ))
        | .fineContent =>
            term1 * term2 * term3 *
              Real.sqrt (12 / ((layer.content_value : ℝ) - 3))
    | .intensityChoice =>
        (0.79 * (NPrime : ℝ)) * (1 - 0.02 * (d.groundwater_depth_dw : ℝ)) *
          (0.27 + (layer.ds : ℝ) / ((layer.ds : ℝ) + 6.2))
  max 1.0 raw

/-- Step 1.2: liquefaction probability
`PL = 1/(1 + exp(0.32·(N − Ncr)))`, clamped into `[0, 1]`. -/
noncomputable def computePL (N Ncr : ℝ) : ℝ :=
  let exponent_term := 0.32 * (N - Ncr)
  max 0.0 (min 1.0 (1.0 / (1.0 + Real.exp exponent_term)))

open Classical in
/-- Step 1.3: critical value at the computed liquefaction probability,
with ±20 saturation at the PL extremes, floored at 0.1. -/
noncomputable def computeNcrPL (N Ncr PL : ℝ) : ℝ :=
  max 0.1 (if PL ≤ 0.001 then N + 20.0
    else if PL ≥ 0.999 then N - 20.0
    else Ncr - Real.log (PL / (1 - PL)) / 0.32)

/-- Step 1.4: depth weight wi. -/
def computeWi (ds : ℚ) : ℚ :=
  if ds ≤ 5 then 10.0 else if ds ≤ 15 then 5.0
  else if ds ≤ 20 then 2.0 else 0.0

/-- Standard layer thickness `di` (the source's fixed 3.0 m constant). -/
def standardLayerThickness : ℚ := 3.0

/-- The per-layer body of the engine loop: Ncr, PL, Ncr,PL, wi and the
contribution `PL · di · wi` with `di = 3.0`. -/
noncomputable def layerCalc (d : SiteData) (amax NPrime β : ℚ)
    (layer : SoilLayer) : LayerDetail :=
  let Ncr := computeNcr d amax NPrime β layer
  let PL := computePL (layer.N : ℝ) Ncr
  let Ncr_PL := computeNcrPL (layer.N : ℝ) Ncr PL
  let wi := computeWi layer.ds
  { ds := layer.ds
    N := layer.N
    content_value := layer.content_value
    Ncr := Ncr
    PL := PL
    Ncr_PL := Ncr_PL
    wi := wi
    contribution_value := PL * (standardLayerThickness : ℝ) * (wi : ℝ) }

open Classical in
/-- Step 1.5: liquefaction grade from the aggregate index and the
discrimination depth (thresholds (5, 15) at depth 15, else (6, 18)). -/
noncomputable def classifyGrade (depth : ℤ) (ILE : ℝ) : LiquefactionGrade :=
  if ILE ≤ 0 then .noLiquefaction
  else if depth = 15 then
    if ILE ≤ 5 then .slight else if ILE ≤ 15 then .moderate else .severe
  else
    if ILE ≤ 6 then .slight else if ILE ≤ 18 then .moderate else .severe

/-- `calculate_liquefaction_index`: the full engine. `none` models the raised
`ValueError` for an out-of-range amax in amax mode; every other input yields a
result. The running sum over the layer loop is a left fold of the
contributions. -/
noncomputable def calculate_liquefaction_index (d : SiteData) :
    Option SiteResult :=
  let β := computeBeta d
  match resolveSeismicParams d with
  | none => none
  | some (amax, NPrime) =>
      let details := d.soil_layer_data.map (layerCalc d amax NPrime β)
      let ILE := (details.map (·.contribution_value)).foldl (· + ·) 0
      some
        { design_earthquake_adjustment_coefficient_β := β
          liquefaction_index_ILE := ILE
          liquefaction_grade := classifyGrade d.discrimination_depth ILE
          soil_layer_calculation_details := details }

/-! ## Concrete sites used by witnesses and counterexamples -/

/-- An amax-mode, clay-content, group-mode site with a given amax input. -/
def siteAmax (a : ℚ) : SiteData :=
  { acceleration_intensity_choice := .amaxChoice
    particle_content_choice := .clayContent
    beta_calculation_method := .group
    seismic_intensity := 7
    amax_input_value := a
    discrimination_depth := 15
    groundwater_depth_dw := 2
    surface_wave_magnitude_Ms := 6.5
    design_earthquake_group := "1"
    soil_layer_data := [⟨1.5, 12, 3⟩] }

/-- A formula-β-mode site. -/
def siteFormulaBeta : SiteData :=
  { siteAmax 0.1 with beta_calculation_method := .formula }

/-- An intensity-mode site with intensity 8. -/
def siteIntensity : SiteData :=
  { siteAmax 0.1 with
      acceleration_intensity_choice := .intensityChoice
      seismic_intensity := 8 }

/-- The same intensity-mode site with different β-related and amax inputs. -/
def siteIntensity2 : SiteData :=
  { siteIntensity with
      beta_calculation_method := .formula
      surface_wave_magnitude_Ms := 8
      design_earthquake_group := "9"
      amax_input_value := 5 }

/-- The amax value a site resolves to in intensity mode. -/
def intensityAmax (d : SiteData) : ℚ :=
  (amax_mapping d.seismic_intensity).getD 0.1

/-- The N' value a site resolves to in intensity mode. -/
def intensityNPrime (d : SiteData) : ℚ :=
  (N_prime_mapping (intensityAmax d)).getD 16

/-- The single layer detail of the amax-mode demo site. -/
noncomputable def demoDet : LayerDetail :=
  layerCalc (siteAmax 0.1) ((siteAmax 0.1).amax_input_value) 16
    (computeBeta (siteAmax 0.1)) ⟨1.5, 12, 3⟩

/-- The result of the amax-mode demo site. -/
noncomputable def resAmax : SiteResult :=
  { design_earthquake_adjustment_coefficient_β := computeBeta (siteAmax 0.1)
    liquefaction_index_ILE := ([demoDet].map (·.contribution_value)).foldl (· + ·) 0
    liquefaction_grade :=
      classifyGrade 15 (([demoDet].map (·.contribution_value)).foldl (· + ·) 0)
    soil_layer_calculation_details := [demoDet] }

/-- The single layer detail of the intensity-mode demo site. -/
noncomputable def demoDetIntensity : LayerDetail :=
  layerCalc siteIntensity (intensityAmax siteIntensity) (intensityNPrime siteIntensity)
    (computeBeta siteIntensity) ⟨1.5, 12, 3⟩

/-- The result of the intensity-mode demo site. -/
noncomputable def resIntensity : SiteResult :=
  { design_earthquake_adjustment_coefficient_β := computeBeta siteIntensity
    liquefaction_index_ILE :=
      ([demoDetIntensity].map (·.contribution_value)).foldl (· + ·) 0
    liquefaction_grade :=
      classifyGrade 15 (([demoDetIntensity].map (·.contribution_value)).foldl (· + ·) 0)
    soil_layer_calculation_details := [demoDetIntensity] }

/-- The single layer detail of the modified intensity-mode demo site. -/
noncomputable def demoDetIntensity2 : LayerDetail :=
  layerCalc siteIntensity2 (intensityAmax siteIntensity2) (intensityNPrime siteIntensity2)
    (computeBeta siteIntensity2) ⟨1.5, 12, 3⟩

/-- The result of the modified intensity-mode demo site. -/
noncomputable def resIntensity2 : SiteResult :=
  { design_earthquake_adjustment_coefficient_β := computeBeta siteIntensity2
    liquefaction_index_ILE :=
      ([demoDetIntensity2].map (·.contribution_value)).foldl (· + ·) 0
    liquefaction_grade :=
      classifyGrade 15 (([demoDetIntensity2].map (·.contribution_value)).foldl (· + ·) 0)
    soil_layer_calculation_details := [demoDetIntensity2] }

/-! ## Structural lemmas about the engine -/

theorem calc_eq_none (d : SiteData) (h : resolveSeismicParams d = none) :
    calculate_liquefaction_index d = none := by
  unfold calculate_liquefaction_index
  rw [h]

theorem calc_eq_some (d : SiteData) (amax NPrime : ℚ)
    (h : resolveSeismicParams d = some (amax, NPrime)) :
    calculate_liquefaction_index d =
      some { design_earthquake_adjustment_coefficient_β := computeBeta d
             liquefaction_index_ILE :=
               (((d.soil_layer_data.map (layerCalc d amax NPrime (computeBeta d))).map
                 (·.contribution_value)).foldl (· + ·) 0)
             liquefaction_grade := classifyGrade d.discrimination_depth
               (((d.soil_layer_data.map (layerCalc d amax NPrime (computeBeta d))).map
                 (·.contribution_value)).foldl (· + ·) 0)
             soil_layer_calculation_details :=
               d.soil_layer_data.map (layerCalc d amax NPrime (computeBeta d)) } := by
  unfold calculate_liquefaction_index
  rw [h]

theorem resolveSeismic_amax_some (d : SiteData)
    (hmode : d.acceleration_intensity_choice = SeismicChoice.amaxChoice)
    (h : 0.09 ≤ d.amax_input_value ∧ d.amax_input_value ≤ 0.41) :
    resolveSeismicParams d = some (d.amax_input_value, 16) := by
  unfold resolveSeismicParams
  rw [hmode]
  simp [h]

theorem resolveSeismic_amax_none (d : SiteData)
    (hmode : d.acceleration_intensity_choice = SeismicChoice.amaxChoice)
    (h : ¬(0.09 ≤ d.amax_input_value ∧ d.amax_input_value ≤ 0.41)) :
    resolveSeismicParams d = none := by
  unfold resolveSeismicParams
  rw [hmode]
  simp [h]

theorem resolveSeismic_intensity (d : SiteData)
    (hmode : d.acceleration_intensity_choice = SeismicChoice.intensityChoice) :
    resolveSeismicParams d =
      some ((amax_mapping d.seismic_intensity).getD 0.1,
        (N_prime_mapping ((amax_mapping d.seismic_intensity).getD 0.1)).getD 16) := by
  unfold resolveSeismicParams
  rw [hmode]

/-- Every detail of a successful computation is the `layerCalc` image of an
input layer, under the resolved seismic parameters. -/
theorem detail_of_mem (d : SiteData) (r : SiteResult)
    (h : calculate_liquefaction_index d = some r) (det : LayerDetail)
    (hdet : det ∈ r.soil_layer_calculation_details) :
    ∃ amax NPrime : ℚ, ∃ layer : SoilLayer,
      resolveSeismicParams d = some (amax, NPrime) ∧
      layer ∈ d.soil_layer_data ∧
      det = layerCalc d amax NPrime (computeBeta d) layer := by
  cases hres : resolveSeismicParams d with
  | none => rw [calc_eq_none d hres] at h; exact absurd h (by simp)
  | some p =>
      obtain ⟨amax, NPrime⟩ := p
      rw [calc_eq_some d amax NPrime hres] at h
      obtain rfl : _ = r := Option.some.inj h
      simp only [List.mem_map] at hdet
      obtain ⟨layer, hl, hle⟩ := hdet
      exact ⟨amax, NPrime, layer, rfl, hl, hle.symm⟩

theorem layerCalc_ds (d : SiteData) (amax NPrime β : ℚ) (l : SoilLayer) :
    (layerCalc d amax NPrime β l).ds = l.ds := rfl

theorem layerCalc_N (d : SiteData) (amax NPrime β : ℚ) (l : SoilLayer) :
    (layerCalc d amax NPrime β l).N = l.N := rfl

theorem layerCalc_content (d : SiteData) (amax NPrime β : ℚ) (l : SoilLayer) :
    (layerCalc d amax NPrime β l).content_value = l.content_value := rfl

theorem layerCalc_Ncr (d : SiteData) (amax NPrime β : ℚ) (l : SoilLayer) :
    (layerCalc d amax NPrime β l).Ncr = computeNcr d amax NPrime β l := rfl

theorem layerCalc_PL (d : SiteData) (amax NPrime β : ℚ) (l : SoilLayer) :
    (layerCalc d amax NPrime β l).PL =
      computePL (l.N : ℝ) (computeNcr d amax NPrime β l) := rfl

theorem layerCalc_NcrPL (d : SiteData) (amax NPrime β : ℚ) (l : SoilLayer) :
    (layerCalc d amax NPrime β l).Ncr_PL =
      computeNcrPL (l.N : ℝ) (computeNcr d amax NPrime β l)
        (computePL (l.N : ℝ) (computeNcr d amax NPrime β l)) := rfl

theorem layerCalc_wi (d : SiteData) (amax NPrime β : ℚ) (l : SoilLayer) :
    (layerCalc d amax NPrime β l).wi = computeWi l.ds := rfl

theorem layerCalc_contribution (d : SiteData) (amax NPrime β : ℚ) (l : SoilLayer) :
    (layerCalc d amax NPrime β l).contribution_value =
      computePL (l.N : ℝ) (computeNcr d amax NPrime β l) *
        (standardLayerThickness : ℝ) * (computeWi l.ds : ℝ) := rfl

theorem resolveSeismic_amax_inv (d : SiteData)
    (hmode : d.acceleration_intensity_choice = SeismicChoice.amaxChoice)
    (amax NPrime : ℚ) (h : resolveSeismicParams d = some (amax, NPrime)) :
    amax = d.amax_input_value ∧ NPrime = 16 := by
  unfold resolveSeismicParams at h
  rw [hmode] at h
  by_cases hc : 0.09 ≤ d.amax_input_value ∧ d.amax_input_value ≤ 0.41
  · rw [if_pos hc] at h
    have h' := Option.some.inj h
    rw [Prod.ext_iff] at h'
    exact ⟨h'.1.symm, h'.2.symm⟩
  · rw [if_neg hc] at h
    exact absurd h (by simp)

theorem resolveSeismic_intensity_inv (d : SiteData)
    (hmode : d.acceleration_intensity_choice = SeismicChoice.intensityChoice)
    (amax NPrime : ℚ) (h : resolveSeismicParams d = some (amax, NPrime)) :
    amax = (amax_mapping d.seismic_intensity).getD 0.1 ∧
    NPrime = (N_prime_mapping ((amax_mapping d.seismic_intensity).getD 0.1)).getD 16 := by
  rw [resolveSeismic_intensity d hmode] at h
  have h' := Option.some.inj h
  rw [Prod.ext_iff] at h'
  exact ⟨h'.1.symm, h'.2.symm⟩

/-! ## Evaluation of the demo sites -/

theorem calc_siteAmax :
    calculate_liquefaction_index (siteAmax 0.1) = some resAmax := by
  rw [calc_eq_some (siteAmax 0.1) ((siteAmax 0.1).amax_input_value) 16
    (resolveSeismic_amax_some (siteAmax 0.1) rfl (by norm_num [siteAmax]))]
  rfl

theorem demoDet_mem :
    demoDet ∈ resAmax.soil_layer_calculation_details := by
  exact List.mem_singleton.mpr rfl

theorem calc_siteIntensity :
    calculate_liquefaction_index siteIntensity = some resIntensity := by
  rw [calc_eq_some siteIntensity (intensityAmax siteIntensity)
    (intensityNPrime siteIntensity) (resolveSeismic_intensity siteIntensity rfl)]
  rfl

theorem calc_siteIntensity2 :
    calculate_liquefaction_index siteIntensity2 = some resIntensity2 := by
  rw [calc_eq_some siteIntensity2 (intensityAmax siteIntensity2)
    (intensityNPrime siteIntensity2) (resolveSeismic_intensity siteIntensity2 rfl)]
  rfl

/-! ## Analytic lemmas about the per-layer functions -/

theorem computeNcr_ds_content (d : SiteData) (amax NPrime β : ℚ)
    (l1 l2 : SoilLayer) (hds : l1.ds = l2.ds)
    (hc : l1.content_value = l2.content_value) :
    computeNcr d amax NPrime β l1 = computeNcr d amax NPrime β l2 := by
  unfold computeNcr
  rw [hds, hc]

theorem computePL_eq_logistic (N Ncr : ℝ) :
    computePL N Ncr = 1 / (1 + Real.exp (0.32 * (N - Ncr))) := by
  have hpos : (0 : ℝ) < 1 + Real.exp (0.32 * (N - Ncr)) := by positivity
  have h1 : 1 / (1 + Real.exp (0.32 * (N - Ncr))) ≤ 1 := by
    rw [div_le_one hpos]
    linarith [Real.exp_pos (0.32 * (N - Ncr))]
  have h0 : (0 : ℝ) ≤ 1 / (1 + Real.exp (0.32 * (N - Ncr))) := by positivity
  unfold computePL
  rw [show (1.0 : ℝ) = 1 from by norm_num, show (0.0 : ℝ) = 0 from by norm_num]
  simp only [min_eq_right h1, max_eq_right h0]

theorem layerCalc_intensity_indep (d1 d2 : SiteData)
    (h1 : d1.acceleration_intensity_choice = SeismicChoice.intensityChoice)
    (h2 : d2.acceleration_intensity_choice = SeismicChoice.intensityChoice)
    (hw : d1.groundwater_depth_dw = d2.groundwater_depth_dw)
    (amax1 amax2 NPrime β1 β2 : ℚ) (l : SoilLayer) :
    layerCalc d1 amax1 NPrime β1 l = layerCalc d2 amax2 NPrime β2 l := by
  unfold layerCalc computeNcr
  rw [h1, h2, hw]

end SPT

namespace SPT

/-! ## Claims -/

/-- C1 (counterexample): the claim states that `amax = 0.09` and
`amax = 0.41` raise `ValidationError`; on the code both inputs succeed,
because the guard `0.09 <= amax <= 0.41` accepts the bounds. -/
theorem amax_boundary_accepted_cex :
    (calculate_liquefaction_index (siteAmax 0.09)).isSome = true ∧
    (calculate_liquefaction_index (siteAmax 0.41)).isSome = true := by
  constructor
  · rw [calc_eq_some (siteAmax 0.09) 0.09 16
      (resolveSeismic_amax_some _ rfl (by norm_num [siteAmax]))]
    rfl
  · rw [calc_eq_some (siteAmax 0.41) 0.41 16
      (resolveSeismic_amax_some _ rfl (by norm_num [siteAmax]))]
    rfl

/-- C1 (amended): in AMAX mode the computation raises `ValidationError`
exactly when amax lies outside the closed interval [0.09, 0.41] g; the
inclusive bounds 0.09 and 0.41 are accepted, as are 0.10 and 0.40. -/
theorem amax_range_check_closed_interval (d : SiteData)
    (hmode : d.acceleration_intensity_choice = SeismicChoice.amaxChoice) :
    (calculate_liquefaction_index d).isSome ↔
      (0.09 ≤ d.amax_input_value ∧ d.amax_input_value ≤ 0.41) := by
  constructor
  · intro hs
    by_contra hc
    rw [calc_eq_none d (resolveSeismic_amax_none d hmode hc)] at hs
    exact absurd hs (by simp)
  · intro hc
    rw [calc_eq_some d d.amax_input_value 16 (resolveSeismic_amax_some d hmode hc)]
    rfl

/-- C1 (witness): the amended range check instantiated at amax = 0.10. -/
theorem amax_range_check_witness :
    (calculate_liquefaction_index (siteAmax 0.10)).isSome ↔
      (0.09 ≤ (siteAmax 0.10).amax_input_value ∧
        (siteAmax 0.10).amax_input_value ≤ 0.41) :=
  amax_range_check_closed_interval (siteAmax 0.10) rfl

set_option maxRecDepth 10000 in
/-- C4: on the header list ["Fc", "N value", "Notes"], the resolver maps
"Clay/Fine Particle Content(%)" to "Fc" and "Measured SPT Blow Count N" to
"N value", and the unrelated header "Notes" is not chosen for any of the six
canonical fields (the remaining four resolve to null). -/
theorem column_resolution_examples :
    auto_recognize_column_names ["Fc".data, "N value".data, "Notes".data] =
      [("Site Number".data, none),
       ("Saturated Sand Depth ds(m)".data, none),
       ("Measured SPT Blow Count N".data, some "N value".data),
       ("Clay/Fine Particle Content(%)".data, some "Fc".data),
       ("Surface Peak Acceleration amax(g)".data, none),
       ("Seismic Intensity".data, none)] := by
  decide

/-- C6: β is 0.80/0.95/1.05 for groups "1"/"2"/"3", defaults to 0.80 on any
other group value, and in formula mode is `0.20·Ms − 0.50` clamped into
`[0.80, 1.05]`; the computed β is the one reported in the result. -/
theorem beta_coefficient_spec (d : SiteData) :
    (d.beta_calculation_method = BetaMethod.group →
      ((d.design_earthquake_group = "1" → computeBeta d = 0.80) ∧
       (d.design_earthquake_group = "2" → computeBeta d = 0.95) ∧
       (d.design_earthquake_group = "3" → computeBeta d = 1.05) ∧
       (d.design_earthquake_group ≠ "1" → d.design_earthquake_group ≠ "2" →
        d.design_earthquake_group ≠ "3" → computeBeta d = 0.80))) ∧
    (d.beta_calculation_method = BetaMethod.formula →
      computeBeta d =
        max 0.80 (min 1.05 (0.20 * d.surface_wave_magnitude_Ms - 0.50))) ∧
    (∀ r, calculate_liquefaction_index d = some r →
      r.design_earthquake_adjustment_coefficient_β = computeBeta d) := by
  refine ⟨fun hg => ?_, fun hf => ?_, fun r hr => ?_⟩
  · unfold computeBeta
    rw [hg]
    refine ⟨fun h1 => ?_, fun h2 => ?_, fun h3 => ?_, fun h1 h2 h3 => ?_⟩
    · rw [if_pos h1]
    · rw [if_neg (by rw [h2]; decide), if_pos h2]
    · rw [if_neg (by rw [h3]; decide), if_neg (by rw [h3]; decide), if_pos h3]
    · rw [if_neg h1, if_neg h2, if_neg h3]
  · unfold computeBeta
    rw [hf]
  · cases hres : resolveSeismicParams d with
    | none => rw [calc_eq_none d hres] at hr; exact absurd hr (by simp)
    | some p =>
        obtain ⟨amax, NPrime⟩ := p
        rw [calc_eq_some d amax NPrime hres] at hr
        rw [← Option.some.inj hr]

/-- C6 (witness): group "1" gives β = 0.80 and formula mode with Ms = 6.5
gives the clamped formula value, on concrete sites. -/
theorem beta_coefficient_witness :
    computeBeta (siteAmax 0.1) = 0.80 ∧
    computeBeta siteFormulaBeta =
      max 0.80 (min 1.05 (0.20 * siteFormulaBeta.surface_wave_magnitude_Ms - 0.50)) :=
  ⟨((beta_coefficient_spec (siteAmax 0.1)).1 rfl).1 rfl,
   (beta_coefficient_spec siteFormulaBeta).2.1 rfl⟩

/-- C7: in intensity mode, amax and N' come from the fixed tables, with
intensity 7/8/9 giving (0.1, 16)/(0.2, 23)/(0.4, 37) and any other intensity
giving (0.1, 16); the computation never fails in this mode. -/
theorem intensity_mode_tables (d : SiteData)
    (hmode : d.acceleration_intensity_choice = SeismicChoice.intensityChoice) :
    (d.seismic_intensity = 7 → resolveSeismicParams d = some (0.1, 16)) ∧
    (d.seismic_intensity = 8 → resolveSeismicParams d = some (0.2, 23)) ∧
    (d.seismic_intensity = 9 → resolveSeismicParams d = some (0.4, 37)) ∧
    (d.seismic_intensity ≠ 7 → d.seismic_intensity ≠ 8 → d.seismic_intensity ≠ 9 →
      resolveSeismicParams d = some (0.1, 16)) ∧
    (calculate_liquefaction_index d).isSome = true := by
  rw [resolveSeismic_intensity d hmode]
  refine ⟨fun h7 => ?_, fun h8 => ?_, fun h9 => ?_, fun h7 h8 h9 => ?_, ?_⟩
  · rw [h7]; norm_num [amax_mapping, N_prime_mapping]
  · rw [h8]; norm_num [amax_mapping, N_prime_mapping]
  · rw [h9]; norm_num [amax_mapping, N_prime_mapping]
  · norm_num [amax_mapping, N_prime_mapping, h7, h8, h9]
  · rw [calc_eq_some d _ _ (resolveSeismic_intensity d hmode)]
    rfl

/-- C7 (witness): intensity 8 yields amax = 0.2 g and N' = 23, and the
computation succeeds. -/
theorem intensity_mode_tables_witness :
    resolveSeismicParams siteIntensity = some (0.2, 23) ∧
    (calculate_liquefaction_index siteIntensity).isSome = true :=
  ⟨(intensity_mode_tables siteIntensity rfl).2.1 rfl,
   (intensity_mode_tables siteIntensity rfl).2.2.2.2⟩

/-- C2: every produced layer detail has Ncr given by the mode-selected
formula — AMAX/CLAY with the β multiplier and `sqrt(3/content)`, AMAX/FINE
without β and with `sqrt(12/(content−3))`, INTENSITY from `0.79·N'` — each
floored at 1.0. -/
theorem Ncr_formula_by_mode (d : SiteData) (r : SiteResult)
    (h : calculate_liquefaction_index d = some r) (det : LayerDetail)
    (hdet : det ∈ r.soil_layer_calculation_details) :
    (d.acceleration_intensity_choice = SeismicChoice.amaxChoice →
      d.particle_content_choice = ContentChoice.clayContent →
      det.Ncr = max 1.0 ((computeBeta d : ℝ) *
        ((69 * (d.amax_input_value : ℝ)) / ((d.amax_input_value : ℝ) + 0.40)) *
        (1 - 0.02 * (d.groundwater_depth_dw : ℝ)) *
        (0.21 + (0.79 * (det.ds : ℝ)) / ((det.ds : ℝ) + 6.2)) *
        Real.sqrt (3 / (det.content_value : ℝ)))) ∧
    (d.acceleration_intensity_choice = SeismicChoice.amaxChoice →
      d.particle_content_choice = ContentChoice.fineContent →
      det.Ncr = max 1.0 (
        ((69 * (d.amax_input_value : ℝ)) / ((d.amax_input_value : ℝ) + 0.40)) *
        (1 - 0.02 * (d.groundwater_depth_dw : ℝ)) *
        (0.21 + (0.79 * (det.ds : ℝ)) / ((det.ds : ℝ) + 6.2)) *
        Real.sqrt (12 / ((det.content_value : ℝ) - 3)))) ∧
    (d.acceleration_intensity_choice = SeismicChoice.intensityChoice →
      det.Ncr = max 1.0 ((0.79 * ((intensityNPrime d : ℚ) : ℝ)) *
        (1 - 0.02 * (d.groundwater_depth_dw : ℝ)) *
        (0.27 + (det.ds : ℝ) / ((det.ds : ℝ) + 6.2)))) := by
  obtain ⟨amax, NPrime, layer, hres, hl, rfl⟩ := detail_of_mem d r h det hdet
  refine ⟨fun hmode hclay => ?_, fun hmode hfine => ?_, fun hmode => ?_⟩
  · obtain ⟨rfl, rfl⟩ := resolveSeismic_amax_inv d hmode _ _ hres
    simp only [layerCalc_Ncr, layerCalc_ds, layerCalc_content]
    unfold computeNcr
    rw [hmode, hclay]
  · obtain ⟨rfl, rfl⟩ := resolveSeismic_amax_inv d hmode _ _ hres
    simp only [layerCalc_Ncr, layerCalc_ds, layerCalc_content]
    unfold computeNcr
    rw [hmode, hfine]
  · obtain ⟨rfl, rfl⟩ := resolveSeismic_intensity_inv d hmode _ _ hres
    simp only [layerCalc_Ncr, layerCalc_ds, layerCalc_content]
    unfold computeNcr
    rw [hmode]
    rfl

/-- C2 (witness): the AMAX/CLAY Ncr formula instantiated on the demo site's
layer. -/
theorem Ncr_formula_witness :
    demoDet.Ncr = max 1.0 ((computeBeta (siteAmax 0.1) : ℝ) *
      ((69 * ((siteAmax 0.1).amax_input_value : ℝ)) /
        (((siteAmax 0.1).amax_input_value : ℝ) + 0.40)) *
      (1 - 0.02 * ((siteAmax 0.1).groundwater_depth_dw : ℝ)) *
      (0.21 + (0.79 * (demoDet.ds : ℝ)) / ((demoDet.ds : ℝ) + 6.2)) *
      Real.sqrt (3 / (demoDet.content_value : ℝ))) :=
  (Ncr_formula_by_mode (siteAmax 0.1) resAmax calc_siteAmax demoDet demoDet_mem).1
    rfl rfl

/-- C5: every produced layer detail has
`PL = 1/(1 + exp(0.32·(N − Ncr)))` clamped into [0, 1], and Ncr,PL given by
the saturation-guarded inversion, floored at 0.1. -/
theorem PL_and_NcrPL_formulas (d : SiteData) (r : SiteResult)
    (h : calculate_liquefaction_index d = some r) (det : LayerDetail)
    (hdet : det ∈ r.soil_layer_calculation_details) :
    det.PL =
      max 0.0 (min 1.0 (1.0 / (1.0 + Real.exp (0.32 * ((det.N : ℝ) - det.Ncr))))) ∧
    (det.PL ≤ 0.001 → det.Ncr_PL = max 0.1 ((det.N : ℝ) + 20.0)) ∧
    (det.PL ≥ 0.999 → det.Ncr_PL = max 0.1 ((det.N : ℝ) - 20.0)) ∧
    (0.001 < det.PL → det.PL < 0.999 →
      det.Ncr_PL = max 0.1 (det.Ncr - Real.log (det.PL / (1 - det.PL)) / 0.32)) := by
  obtain ⟨amax, NPrime, layer, hres, hl, rfl⟩ := detail_of_mem d r h det hdet
  simp only [layerCalc_PL, layerCalc_NcrPL, layerCalc_N, layerCalc_Ncr]
  refine ⟨rfl, fun hlo => ?_, fun hhi => ?_, fun hlo hhi => ?_⟩
  · unfold computeNcrPL
    rw [if_pos hlo]
  · unfold computeNcrPL
    rw [if_neg (by simp only [ge_iff_le] at hhi; intro hc; linarith), if_pos hhi]
  · unfold computeNcrPL
    rw [if_neg (by intro hc; linarith), if_neg (by intro hc; linarith)]

/-- C5 (witness): the PL formula instantiated on the demo site's layer. -/
theorem PL_and_NcrPL_witness :
    demoDet.PL =
      max 0.0 (min 1.0 (1.0 / (1.0 + Real.exp (0.32 * ((demoDet.N : ℝ) - demoDet.Ncr))))) :=
  (PL_and_NcrPL_formulas (siteAmax 0.1) resAmax calc_siteAmax demoDet demoDet_mem).1

/-- C8: every produced layer detail satisfies the invariants PL ∈ [0, 1],
Ncr ≥ 1.0, Ncr,PL ≥ 0.1, wi ∈ {0, 2, 5, 10}. -/
theorem layer_output_invariants (d : SiteData) (r : SiteResult)
    (h : calculate_liquefaction_index d = some r) (det : LayerDetail)
    (hdet : det ∈ r.soil_layer_calculation_details) :
    0 ≤ det.PL ∧ det.PL ≤ 1 ∧ (1 : ℝ) ≤ det.Ncr ∧ (0.1 : ℝ) ≤ det.Ncr_PL ∧
    (det.wi = 0 ∨ det.wi = 2 ∨ det.wi = 5 ∨ det.wi = 10) := by
  obtain ⟨amax, NPrime, layer, hres, hl, rfl⟩ := detail_of_mem d r h det hdet
  refine ⟨?_, ?_, ?_, ?_, ?_⟩
  · simp only [layerCalc_PL]
    unfold computePL
    exact le_max_of_le_left (by norm_num)
  · simp only [layerCalc_PL]
    unfold computePL
    exact max_le (by norm_num) ((min_le_left _ _).trans (by norm_num))
  · simp only [layerCalc_Ncr]
    unfold computeNcr
    exact le_max_of_le_left (by norm_num)
  · simp only [layerCalc_NcrPL]
    unfold computeNcrPL
    exact le_max_of_le_left (by norm_num)
  · simp only [layerCalc_wi]
    unfold computeWi
    split_ifs <;> norm_num

/-- C8 (witness): the invariants instantiated on the demo site's layer. -/
theorem layer_output_invariants_witness :
    0 ≤ demoDet.PL ∧ demoDet.PL ≤ 1 ∧ (1 : ℝ) ≤ demoDet.Ncr ∧
    (0.1 : ℝ) ≤ demoDet.Ncr_PL ∧
    (demoDet.wi = 0 ∨ demoDet.wi = 2 ∨ demoDet.wi = 5 ∨ demoDet.wi = 10) :=
  layer_output_invariants (siteAmax 0.1) resAmax calc_siteAmax demoDet demoDet_mem

/-- C3: each layer's weight is the depth step function, each contribution is
`PL · 3.0 · wi`, ILE is the sum of the contributions, the grade comes from the
discrimination-depth threshold table, and the depth-15 boundaries fall
exactly as claimed. -/
theorem weights_contributions_ILE_grade (d : SiteData) (r : SiteResult)
    (h : calculate_liquefaction_index d = some r) :
    (∀ det ∈ r.soil_layer_calculation_details,
      det.wi = (if det.ds ≤ 5 then (10.0 : ℚ) else if det.ds ≤ 15 then 5.0
        else if det.ds ≤ 20 then 2.0 else 0.0) ∧
      det.contribution_value = det.PL * 3.0 * (det.wi : ℝ)) ∧
    r.liquefaction_index_ILE =
      (r.soil_layer_calculation_details.map (·.contribution_value)).sum ∧
    r.liquefaction_grade =
      classifyGrade d.discrimination_depth r.liquefaction_index_ILE ∧
    (∀ x : ℝ,
      (x ≤ 0 → classifyGrade 15 x = LiquefactionGrade.noLiquefaction) ∧
      (0 < x → x ≤ 5 → classifyGrade 15 x = LiquefactionGrade.slight) ∧
      (5 < x → x ≤ 15 → classifyGrade 15 x = LiquefactionGrade.moderate) ∧
      (15 < x → classifyGrade 15 x = LiquefactionGrade.severe)) ∧
    (∀ x : ℝ,
      (x ≤ 0 → classifyGrade 20 x = LiquefactionGrade.noLiquefaction) ∧
      (0 < x → x ≤ 6 → classifyGrade 20 x = LiquefactionGrade.slight) ∧
      (6 < x → x ≤ 18 → classifyGrade 20 x = LiquefactionGrade.moderate) ∧
      (18 < x → classifyGrade 20 x = LiquefactionGrade.severe)) ∧
    classifyGrade 15 5 = LiquefactionGrade.slight ∧
    classifyGrade 15 5.0001 = LiquefactionGrade.moderate ∧
    classifyGrade 15 15 = LiquefactionGrade.moderate ∧
    classifyGrade 15 15.0001 = LiquefactionGrade.severe ∧
    classifyGrade 15 0 = LiquefactionGrade.noLiquefaction := by
  have g15 : ∀ x : ℝ,
      (x ≤ 0 → classifyGrade 15 x = LiquefactionGrade.noLiquefaction) ∧
      (0 < x → x ≤ 5 → classifyGrade 15 x = LiquefactionGrade.slight) ∧
      (5 < x → x ≤ 15 → classifyGrade 15 x = LiquefactionGrade.moderate) ∧
      (15 < x → classifyGrade 15 x = LiquefactionGrade.severe) := by
    intro x
    unfold classifyGrade
    refine ⟨fun h0 => ?_, fun h0 h5 => ?_, fun h5 h15 => ?_, fun h15 => ?_⟩
    · rw [if_pos h0]
    · rw [if_neg (not_le.mpr h0), if_pos rfl, if_pos h5]
    · rw [if_neg (not_le.mpr (by linarith)), if_pos rfl,
        if_neg (not_le.mpr h5), if_pos h15]
    · rw [if_neg (not_le.mpr (by linarith)), if_pos rfl,
        if_neg (not_le.mpr (by linarith)), if_neg (not_le.mpr h15)]
  have g20 : ∀ x : ℝ,
      (x ≤ 0 → classifyGrade 20 x = LiquefactionGrade.noLiquefaction) ∧
      (0 < x → x ≤ 6 → classifyGrade 20 x = LiquefactionGrade.slight) ∧
      (6 < x → x ≤ 18 → classifyGrade 20 x = LiquefactionGrade.moderate) ∧
      (18 < x → classifyGrade 20 x = LiquefactionGrade.severe) := by
    intro x
    unfold classifyGrade
    refine ⟨fun h0 => ?_, fun h0 h6 => ?_, fun h6 h18 => ?_, fun h18 => ?_⟩
    · rw [if_pos h0]
    · rw [if_neg (not_le.mpr h0), if_neg (by decide), if_pos h6]
    · rw [if_neg (not_le.mpr (by linarith)), if_neg (by decide),
        if_neg (not_le.mpr h6), if_pos h18]
    · rw [if_neg (not_le.mpr (by linarith)), if_neg (by decide),
        if_neg (not_le.mpr (by linarith)), if_neg (not_le.mpr h18)]
  cases hres : resolveSeismicParams d with
  | none => rw [calc_eq_none d hres] at h; exact absurd h (by simp)
  | some p =>
      obtain ⟨amax, NPrime⟩ := p
      rw [calc_eq_some d amax NPrime hres] at h
      obtain rfl := Option.some.inj h
      refine ⟨?_, ?_, rfl, g15, g20,
        (g15 5).2.1 (by norm_num) le_rfl,
        (g15 5.0001).2.2.1 (by norm_num) (by norm_num),
        (g15 15).2.2.1 (by norm_num) le_rfl,
        (g15 15.0001).2.2.2 (by norm_num),
        (g15 0).1 le_rfl⟩
      · intro det hdet
        simp only [List.mem_map] at hdet
        obtain ⟨layer, hl, rfl⟩ := hdet
        constructor
        · simp only [layerCalc_wi, layerCalc_ds]
          rfl
        · simp only [layerCalc_contribution, layerCalc_PL, layerCalc_wi,
            standardLayerThickness]
          norm_num
      · exact List.sum_eq_foldl.symm

/-- C3 (witness): the weight, contribution, ILE-sum, grade-table relation and
the 5.000-boundary, instantiated on the demo site. -/
theorem weights_contributions_witness :
    (demoDet.wi = (if demoDet.ds ≤ 5 then (10.0 : ℚ) else if demoDet.ds ≤ 15 then 5.0
      else if demoDet.ds ≤ 20 then 2.0 else 0.0)) ∧
    demoDet.contribution_value = demoDet.PL * 3.0 * (demoDet.wi : ℝ) ∧
    resAmax.liquefaction_index_ILE =
      (resAmax.soil_layer_calculation_details.map (·.contribution_value)).sum ∧
    resAmax.liquefaction_grade =
      classifyGrade (siteAmax 0.1).discrimination_depth resAmax.liquefaction_index_ILE ∧
    classifyGrade 15 5 = LiquefactionGrade.slight :=
  let T := weights_contributions_ILE_grade (siteAmax 0.1) resAmax calc_siteAmax
  ⟨(T.1 demoDet demoDet_mem).1, (T.1 demoDet demoDet_mem).2, T.2.1, T.2.2.1,
    T.2.2.2.2.2.1⟩

/-- C9: with depth, content and all site parameters fixed, a strictly larger
blow count N gives a strictly smaller liquefaction probability PL. -/
theorem PL_strict_antitone_in_N (d : SiteData) (amax NPrime β : ℚ)
    (l1 l2 : SoilLayer) (hds : l1.ds = l2.ds)
    (hc : l1.content_value = l2.content_value) (hN : l1.N < l2.N) :
    (layerCalc d amax NPrime β l2).PL < (layerCalc d amax NPrime β l1).PL := by
  simp only [layerCalc_PL]
  rw [← computeNcr_ds_content d amax NPrime β l1 l2 hds hc]
  rw [computePL_eq_logistic, computePL_eq_logistic]
  have hNr : (l1.N : ℝ) < (l2.N : ℝ) := by exact_mod_cast hN
  have hexp := Real.exp_lt_exp.mpr
    (show 0.32 * ((l1.N : ℝ) - computeNcr d amax NPrime β l1) <
        0.32 * ((l2.N : ℝ) - computeNcr d amax NPrime β l1) from by nlinarith)
  have hpos : (0 : ℝ) <
      1 + Real.exp (0.32 * ((l1.N : ℝ) - computeNcr d amax NPrime β l1)) := by
    positivity
  exact one_div_lt_one_div_of_lt hpos (by linarith)

/-- C9 (witness): two demo layers differing only in N = 12 versus N = 13. -/
theorem PL_strict_antitone_witness :
    (layerCalc (siteAmax 0.1) 0.1 16 0.8 ⟨1.5, 13, 3⟩).PL <
      (layerCalc (siteAmax 0.1) 0.1 16 0.8 ⟨1.5, 12, 3⟩).PL :=
  PL_strict_antitone_in_N (siteAmax 0.1) 0.1 16 0.8 ⟨1.5, 12, 3⟩ ⟨1.5, 13, 3⟩
    rfl rfl (by norm_num)

/-- C10: two intensity-mode sites that agree on intensity, discrimination
depth, groundwater depth, and layers — and may differ in β mode, earthquake
group, surface-wave magnitude and the amax input — produce identical layer
details, identical ILE and identical grade. -/
theorem intensity_mode_noninterference (d1 d2 : SiteData)
    (h1 : d1.acceleration_intensity_choice = SeismicChoice.intensityChoice)
    (h2 : d2.acceleration_intensity_choice = SeismicChoice.intensityChoice)
    (hi : d1.seismic_intensity = d2.seismic_intensity)
    (hd : d1.discrimination_depth = d2.discrimination_depth)
    (hw : d1.groundwater_depth_dw = d2.groundwater_depth_dw)
    (hl : d1.soil_layer_data = d2.soil_layer_data)
    (r1 r2 : SiteResult)
    (hr1 : calculate_liquefaction_index d1 = some r1)
    (hr2 : calculate_liquefaction_index d2 = some r2) :
    r1.soil_layer_calculation_details = r2.soil_layer_calculation_details ∧
    r1.liquefaction_index_ILE = r2.liquefaction_index_ILE ∧
    r1.liquefaction_grade = r2.liquefaction_grade := by
  rw [calc_eq_some d1 _ _ (resolveSeismic_intensity d1 h1)] at hr1
  rw [calc_eq_some d2 _ _ (resolveSeismic_intensity d2 h2)] at hr2
  obtain rfl := Option.some.inj hr1
  obtain rfl := Option.some.inj hr2
  have hdet : d1.soil_layer_data.map
      (layerCalc d1 ((amax_mapping d1.seismic_intensity).getD 0.1)
        ((N_prime_mapping ((amax_mapping d1.seismic_intensity).getD 0.1)).getD 16)
        (computeBeta d1)) =
      d2.soil_layer_data.map
      (layerCalc d2 ((amax_mapping d2.seismic_intensity).getD 0.1)
        ((N_prime_mapping ((amax_mapping d2.seismic_intensity).getD 0.1)).getD 16)
        (computeBeta d2)) := by
    rw [hl, hi]
    exact List.map_congr_left
      (fun l _ => layerCalc_intensity_indep d1 d2 h1 h2 hw _ _ _ _ _ l)
  refine ⟨hdet, ?_, ?_⟩
  · simp only [hdet]
  · simp only [hdet, hd]

/-- C10 (witness): the two demo intensity sites differ in β mode, group, Ms
and amax input, yet produce the same details, ILE and grade. -/
theorem intensity_noninterference_witness :
    resIntensity.soil_layer_calculation_details =
      resIntensity2.soil_layer_calculation_details ∧
    resIntensity.liquefaction_index_ILE = resIntensity2.liquefaction_index_ILE ∧
    resIntensity.liquefaction_grade = resIntensity2.liquefaction_grade :=
  intensity_mode_noninterference siteIntensity siteIntensity2 rfl rfl rfl rfl rfl rfl
    resIntensity resIntensity2 calc_siteIntensity calc_siteIntensity2

end SPT
